import Mathlib

/-!
# `gh codespace jupyter`: the session-and-tunnel lifecycle of `App.Jupyter`

A shallow embedding of `pkg/cmd/codespace/jupyter.go`.

* Go strings are sequences of runes (`List Char`), so a slice `s[i:j]` is
  `(s.drop i).take (j - i)` and a rune has width one.
* The library calls the function makes on strings (`strings.Replace`,
  `fmt.Sprintf("%d", _)`, `fmt.Errorf("...: %w", _)`) are written out after
  the Go standard library.
* The external collaborators (codespace resolution, the key check, the
  liveshare session, the listener, the browser, the port forwarder) are not
  implemented by this file of the repository; one run of `Jupyter` is
  determined by what each of them answers, collected in a `World`. Every
  call of a collaborator is taken to return; the one place where `Jupyter`
  itself may wait without end is its final `select`.
* The effects of a run are recorded as a trace of `Event`s, oldest first;
  deferred calls are kept on a stack and run last-registered-first when the
  function returns.
-/

namespace codespace

/-- A Go `string`, as its sequence of runes. -/
abbrev GoString := List Char

/-! ## Library functions on strings -/

/-- Go `strings.Index(s, substr)`: the index of the first instance of `substr`
in `s`, or `-1` when `substr` is not present in `s`. -/
def Index : GoString → GoString → Int
  | [], substr => if substr = [] then 0 else -1
  | c :: cs, substr =>
    if substr.isPrefixOf (c :: cs) then 0
    else
      let r := Index cs substr
      if r < 0 then -1 else r + 1

/-- The loop of Go `strings.Count` for a non-empty `substr`: look for the next
instance with `Index`, count it, continue behind it. The loop runs at most
`len(s) + 1` times, which is the fuel given by `Count`. -/
def countLoop (substr : GoString) : Nat → GoString → Nat → Nat
  | 0, _, n => n
  | fuel + 1, s, n =>
    let i := Index s substr
    if i = -1 then n
    else countLoop substr fuel (s.drop (i.toNat + substr.length)) (n + 1)

/-- Go `strings.Count(s, substr)`: the number of non-overlapping instances of
`substr` in `s`; for an empty `substr` it is the number of runes of `s` plus
one. -/
def Count (s substr : GoString) : Nat :=
  if substr = [] then s.length + 1
  else countLoop substr (s.length + 1) s 0

/-- The replacement loop of Go `strings.Replace`: `k` replacements are still
to be made, `i` is the loop counter, `start` the read position in `s` and `b`
the builder. -/
def replaceLoop (s old new : GoString) : Nat → Nat → Nat → GoString → GoString
  | 0, _, start, b => b ++ s.drop start
  | k + 1, i, start, b =>
    let j :=
      if old = [] then
        (if 0 < i then start + (if start < s.length then 1 else 0) else start)
      else start + (Index (s.drop start) old).toNat
    replaceLoop s old new k (i + 1) (j + old.length)
      (b ++ (s.drop start).take (j - start) ++ new)

/-- Go `strings.Replace(s, old, new, n)`: a copy of `s` with the first `n`
non-overlapping instances of `old` replaced by `new`; all of them when
`n < 0`. -/
def Replace (s old new : GoString) (n : Int) : GoString :=
  if old = new ∨ n = 0 then s
  else
    let m := Count s old
    if m = 0 then s
    else
      let n1 : Nat := if n < 0 ∨ (m : Int) < n then m else n.toNat
      replaceLoop s old new n1 0 0 []

/-- Go `fmt.Sprintf("%d", n)` for an `int`: the decimal digits of `n`, with a
leading minus sign when `n` is negative. -/
def Sprintf_d (n : Int) : GoString :=
  if n < 0 then '-' :: Nat.toDigits 10 n.natAbs else Nat.toDigits 10 n.toNat

/-- Line 100 of `jupyter.go`: the URL handed to the browser, that is
`strings.Replace(jupyterServerUrl, fmt.Sprintf("%d", jupyterServerPort),
fmt.Sprintf("%d", jupyterDestPort), 1)`. -/
def targetUrl (jupyterServerUrl : GoString) (jupyterServerPort jupyterDestPort : Int) :
    GoString :=
  Replace jupyterServerUrl (Sprintf_d jupyterServerPort) (Sprintf_d jupyterDestPort) 1

/-! ## Errors -/

/-- A non-nil Go `error` value. A possibly nil `error` is an
`Option GoError`. -/
inductive GoError where
  /-- An error made by an external collaborator, with its message. -/
  | collab (msg : GoString)
  /-- The `*errors.errorString` that `fmt.Errorf` makes when no operand is
  wrapped. -/
  | errorString (s : GoString)
  /-- The `*fmt.wrapError` that `fmt.Errorf` makes for a `%w` operand. -/
  | wrapError (msg : GoString) (err : GoError)
  deriving DecidableEq, Repr

/-- The method `Error()`: the message of the error. -/
def GoError.Error : GoError → GoString
  | .collab msg => msg
  | .errorString s => s
  | .wrapError msg _ => msg

/-- Go `fmt.Errorf(pfx + "%w", err)`: for a non-nil `err` a `*fmt.wrapError`
whose message is `pfx` followed by `err.Error()` and which unwraps to `err`;
for a nil operand `%w` prints `%!w(<nil>)` and nothing is wrapped (from
Go 1.20 on the value made for a nil operand is a `*fmt.wrapError` that unwraps
to nil; its message is the same). -/
def Errorf (pfx : GoString) (err : Option GoError) : GoError :=
  match err with
  | some e => .wrapError (pfx ++ e.Error) e
  | none => .errorString (pfx ++ "%!w(<nil>)".toList)

/-! ## The collaborators of one run -/

/-- The struct `jupyterOptions`. -/
structure jupyterOptions where
  codespace : GoString
  debug : Bool
  debugFile : GoString
  stdio : Bool
  deriving DecidableEq, Repr

/-- What the final `select` of `Jupyter` finds on its two channels. -/
inductive Wait where
  /-- The forwarder has delivered its result on `tunnelClosed` and the context
  is not done. -/
  | tunnelClosed (err : Option GoError)
  /-- The context is done and nothing has been delivered on `tunnelClosed`. -/
  | ctxDone
  /-- Both channels are ready when `select` looks at them; Go then picks one
  case at random, the first when `pickTunnel` is true. The forwarder shares
  `ctx` and `tunnelClosed` is buffered, so this is what the `select` finds
  when the context is cancelled and the forwarder delivers its reason before
  line 106 is reached, and also when the forwarder delivers its reason and the
  context is cancelled before line 106 is reached. -/
  | both (err : Option GoError) (pickTunnel : Bool)
  /-- Neither channel ever becomes ready. -/
  | never
  deriving DecidableEq, Repr

/-- The answers of the external collaborators in one run of `Jupyter`. A
function that returns `(value, error)` in Go answers with an `Except`; one
that returns only an `error` answers with an `Option GoError` (`none` is
`nil`). -/
structure World where
  /-- The answer of `getOrChooseCodespace`: the name of the chosen codespace. -/
  getOrChooseCodespace : Except GoError GoString
  /-- The answer of `checkAuthorizedKeys`, sent on `authkeys`. -/
  checkAuthorizedKeys : Option GoError
  /-- The answer of `newFileLogger`: the `Name()` of the debug file. -/
  newFileLogger : Except GoError GoString
  /-- The error of `codespaces.ConnectToLiveshare`; `none` when a session is
  returned. -/
  connectToLiveshare : Option GoError
  /-- The answer of `session.StartJupyterServer`: the port and the URL. -/
  startJupyterServer : Except GoError (Int × GoString)
  /-- The answer of `net.Listen`: the port of the address of the listener. -/
  netListen : Except GoError Int
  /-- The answer of `a.browser.Browse`. -/
  browse : Option GoError
  /-- What the final `select` finds. -/
  wait : Wait
  /-- The answer of `listen.Close()`. -/
  listenClose : Option GoError
  /-- The answer of `session.Close()`. -/
  sessionClose : Option GoError
  /-- The answer of `debugLogger.Close()`. -/
  debugLoggerClose : Option GoError
  /-- What `safeClose` leaves in the variable behind its pointer argument,
  from the error of `Close()` and the value the variable holds. -/
  safeCloseStore : Option GoError → Option GoError → Option GoError

/-! ## Effects -/

/-- One effect of `Jupyter`, with the answer it got. -/
inductive Event where
  /-- Line 40, `context.WithCancel(ctx)`. -/
  | withCancel
  /-- Line 43. -/
  | getOrChooseCodespace (name : GoString) (err : Option GoError)
  /-- Lines 51 to 53, the goroutine that runs `checkAuthorizedKeys`. -/
  | goCheckAuthorizedKeys
  /-- Line 57. -/
  | newFileLogger (file : GoString) (err : Option GoError)
  /-- Line 64, `a.errLogger.Printf`, with the text printed. -/
  | errLoggerPrintf (text : GoString)
  /-- Line 67. -/
  | connectToLiveshare (err : Option GoError)
  /-- Line 69, the receive `<-authkeys`. -/
  | recvAuthkeys (authErr : Option GoError)
  /-- Line 76. -/
  | startProgressIndicatorWithLabel (label : GoString)
  /-- Line 77, the port discovery on the session. -/
  | startJupyterServer (err : Option GoError)
  /-- Line 78. -/
  | stopProgressIndicator
  /-- Line 86, `net.Listen(network, address)`. -/
  | netListen (network address : GoString) (err : Option GoError)
  /-- Line 91, the port read back from `listen.Addr()`. -/
  | listenAddrPort (port : Int)
  /-- Lines 94 to 97, the goroutine that makes the port forwarder
  `NewPortForwarder(session, name, remotePort, keepAlive)` and runs
  `ForwardToListener(ctx, listen)`. -/
  | goForwardToListener (name : GoString) (remotePort : Int) (keepAlive : Bool)
  /-- Line 101. -/
  | browse (url : GoString) (err : Option GoError)
  /-- Line 107, the receive from `tunnelClosed` chosen by `select`. -/
  | recvTunnelClosed (err : Option GoError)
  /-- Line 109, the receive from `ctx.Done()` chosen by `select`. -/
  | recvCtxDone
  /-- The deferred `listen.Close()` of line 90. -/
  | listenClose (err : Option GoError)
  /-- The `session.Close()` made by the deferred `safeClose` of line 74. -/
  | sessionClose (err : Option GoError)
  /-- The `debugLogger.Close()` made by the deferred `safeClose` of line 61. -/
  | debugLoggerClose (err : Option GoError)
  /-- The deferred `cancel()` of line 41. -/
  | cancel
  deriving DecidableEq, Repr

/-- A deferred call of `Jupyter`. -/
inductive Deferred where
  /-- Line 41, `defer cancel()`. -/
  | cancel
  /-- Line 61, `defer safeClose(debugLogger, &err)`, with the `err` declared
  inside the `if opts.debug` block. -/
  | safeCloseDebugLogger
  /-- Line 74, `defer safeClose(session, &err)`, with the `err` of the
  function. -/
  | safeCloseSession
  /-- Line 90, `defer listen.Close()`. -/
  | listenClose
  deriving DecidableEq, Repr

/-- The state of a call of `Jupyter`. -/
structure Frame where
  /-- The effects so far, oldest first. -/
  trace : List Event
  /-- The deferred calls, the one registered last first. -/
  defers : List Deferred
  /-- The variable `err` of the function, declared on line 43. -/
  err : Option GoError
  /-- The variable `err` declared on line 57 inside the `if opts.debug`
  block. -/
  errDebug : Option GoError
  deriving DecidableEq, Repr

/-- How a call of `Jupyter` ends. -/
inductive Outcome where
  /-- The function returns the error `err` (`none` is `nil`). -/
  | returned (err : Option GoError)
  /-- The function waits in its `select` without end. -/
  | blocked
  deriving DecidableEq, Repr

/-- A finished run: its effects, how it ended, and the final values of the two
local variables that the deferred calls can reach. -/
structure Run where
  trace : List Event
  outcome : Outcome
  err : Option GoError
  errDebug : Option GoError
  deriving DecidableEq, Repr

/-- Record an effect. -/
def Frame.emit (f : Frame) (e : Event) : Frame :=
  { f with trace := f.trace ++ [e] }

/-- Register a deferred call. -/
def Frame.defer (f : Frame) (d : Deferred) : Frame :=
  { f with defers := d :: f.defers }

/-- Assign to the variable `err` of the function. -/
def Frame.setErr (f : Frame) (e : Option GoError) : Frame :=
  { f with err := e }

/-- Modelled from the spec: `safeClose(closer, &err)` is defined in another
file of the package. The spec registers the session handle "for guaranteed
close" and the debug logger for "release (flush/close)" with it, so it calls
`closer.Close()` once; what it stores through its pointer is left to
`World.safeCloseStore`. The result is the effect and the new value of the
variable. -/
def safeClose (w : World) (close : Option GoError → Event) (closeErr cur : Option GoError) :
    Event × Option GoError :=
  (close closeErr, w.safeCloseStore closeErr cur)

/-- Run one deferred call. -/
def runDeferred (w : World) (f : Frame) : Deferred → Frame
  | .cancel => f.emit .cancel
  | .safeCloseDebugLogger =>
    let r := safeClose w .debugLoggerClose w.debugLoggerClose f.errDebug
    { f.emit r.1 with errDebug := r.2 }
  | .safeCloseSession =>
    let r := safeClose w .sessionClose w.sessionClose f.err
    { f.emit r.1 with err := r.2 }
  | .listenClose => f.emit (.listenClose w.listenClose)

/-- Run deferred calls in the order of the list. -/
def runDefers (w : World) : List Deferred → Frame → Frame
  | [], f => f
  | d :: ds, f => runDefers w ds (runDeferred w f d)

/-- A `return result` statement: the result is fixed, then the deferred
calls run, the one registered last first. -/
def doReturn (w : World) (f : Frame) (result : Option GoError) : Run :=
  let g := runDefers w f.defers { f with defers := [] }
  { trace := g.trace, outcome := .returned result, err := g.err, errDebug := g.errDebug }

/-! ## `App.Jupyter` -/

/-- Lines 106 to 111: the final `select`. -/
def waitStage (w : World) (f : Frame) : Run :=
  match w.wait with
  | .tunnelClosed err =>
    doReturn w (f.emit (.recvTunnelClosed err)) (some (Errorf "tunnel closed: ".toList err))
  | .ctxDone => doReturn w (f.emit .recvCtxDone) none
  | .both err pickTunnel =>
    if pickTunnel then
      doReturn w (f.emit (.recvTunnelClosed err)) (some (Errorf "tunnel closed: ".toList err))
    else doReturn w (f.emit .recvCtxDone) none
  | .never => { trace := f.trace, outcome := .blocked, err := f.err, errDebug := f.errDebug }

/-- Lines 74 to 111: what `Jupyter` does once the session is connected. -/
def sessionStage (w : World) (f : Frame) : Run :=
  let f := f.defer .safeCloseSession
  let f := f.emit (.startProgressIndicatorWithLabel "Fetching Jupyter Details".toList)
  match w.startJupyterServer with
  | .error e =>
    let f := ((f.emit (.startJupyterServer (some e))).setErr (some e)).emit
      .stopProgressIndicator
    doReturn w f (some (Errorf "error getting jupyter server details: ".toList (some e)))
  | .ok (jupyterServerPort, jupyterServerUrl) =>
    let f := ((f.emit (.startJupyterServer none)).setErr none).emit .stopProgressIndicator
    let jupyterDestPort : Int := 0
    let address := "127.0.0.1:".toList ++ Sprintf_d jupyterDestPort
    match w.netListen with
    | .error e =>
      let f := (f.emit (.netListen "tcp".toList address (some e))).setErr (some e)
      doReturn w f f.err
    | .ok port =>
      let f := (f.emit (.netListen "tcp".toList address none)).setErr none
      let f := f.defer .listenClose
      let f := f.emit (.listenAddrPort port)
      let jupyterDestPort : Int := port
      let f := f.emit (.goForwardToListener "jupyter".toList jupyterServerPort true)
      let url := targetUrl jupyterServerUrl jupyterServerPort jupyterDestPort
      match w.browse with
      | some e =>
        let f := (f.emit (.browse url (some e))).setErr (some e)
        doReturn w f f.err
      | none => waitStage w ((f.emit (.browse url none)).setErr none)

/-- Lines 67 to 73: connect the session; on failure consult the key check. -/
def connectStage (w : World) (f : Frame) : Run :=
  match w.connectToLiveshare with
  | some e =>
    let f := (f.emit (.connectToLiveshare (some e))).setErr (some e)
    let f := f.emit (.recvAuthkeys w.checkAuthorizedKeys)
    match w.checkAuthorizedKeys with
    | some authErr => doReturn w f (some authErr)
    | none => doReturn w f (some (Errorf "error connecting to codespace: ".toList (some e)))
  | none => sessionStage w ((f.emit (.connectToLiveshare none)).setErr none)

/-- The method `App.Jupyter(ctx, opts)`, lines 36 to 112. -/
def Jupyter (w : World) (opts : jupyterOptions) : Run :=
  let f : Frame := { trace := [.withCancel], defers := [.cancel], err := none, errDebug := none }
  match w.getOrChooseCodespace with
  | .error e =>
    let f := (f.emit (.getOrChooseCodespace opts.codespace (some e))).setErr (some e)
    doReturn w f (some (Errorf "get or choose codespace: ".toList (some e)))
  | .ok _ =>
    let f := (f.emit (.getOrChooseCodespace opts.codespace none)).setErr none
    let f := f.emit .goCheckAuthorizedKeys
    if opts.debug then
      match w.newFileLogger with
      | .error e =>
        let f := { f.emit (.newFileLogger opts.debugFile (some e)) with errDebug := some e }
        doReturn w f (some (Errorf "error creating debug logger: ".toList (some e)))
      | .ok name =>
        let f := { f.emit (.newFileLogger opts.debugFile none) with errDebug := none }
        let f := f.defer .safeCloseDebugLogger
        let f := f.emit (.errLoggerPrintf ("Debug file located at: ".toList ++ name))
        connectStage w f
    else connectStage w f

/-! ## Reading a trace -/

/-- The session was closed. -/
def Event.isSessionClose : Event → Bool
  | .sessionClose _ => true
  | _ => false

/-- The listener was closed. -/
def Event.isListenClose : Event → Bool
  | .listenClose _ => true
  | _ => false

/-- The deferred `cancel()` was called. -/
def Event.isCancel : Event → Bool
  | .cancel => true
  | _ => false

/-- The resolution of the codespace failed. -/
def Event.isResolveFailed : Event → Bool
  | .getOrChooseCodespace _ (some _) => true
  | _ => false

/-- A session connect was attempted. -/
def Event.isConnect : Event → Bool
  | .connectToLiveshare _ => true
  | _ => false

/-- The session connect succeeded. -/
def Event.isConnected : Event → Bool
  | .connectToLiveshare none => true
  | _ => false

/-- The port discovery was called on the session. -/
def Event.isDiscovery : Event → Bool
  | .startJupyterServer _ => true
  | _ => false

/-- A listen was attempted. -/
def Event.isListen : Event → Bool
  | .netListen _ _ _ => true
  | _ => false

/-- The listen succeeded. -/
def Event.isListening : Event → Bool
  | .netListen _ _ none => true
  | _ => false

/-- The listen failed. -/
def Event.isListenFailed : Event → Bool
  | .netListen _ _ (some _) => true
  | _ => false

/-- The port of the listener was read back. -/
def Event.isAddrPort : Event → Bool
  | .listenAddrPort _ => true
  | _ => false

/-- The forwarding task was started. -/
def Event.isForward : Event → Bool
  | .goForwardToListener _ _ _ => true
  | _ => false

/-- The open action was called. -/
def Event.isBrowse : Event → Bool
  | .browse _ _ => true
  | _ => false

/-- The `select` took the result of the tunnel. -/
def Event.isRecvTunnelClosed : Event → Bool
  | .recvTunnelClosed _ => true
  | _ => false

/-- The `select` took the cancellation. -/
def Event.isRecvCtxDone : Event → Bool
  | .recvCtxDone => true
  | _ => false

/-- In the trace `t`, every event that satisfies `q` comes strictly after an
event that satisfies `p`. -/
def precededBy (p q : Event → Bool) : List Event → Bool
  | [] => true
  | e :: es => !q e && (p e || precededBy p q es)

/-- Every stage before the final `select` succeeds: resolution, the debug
logger when one is requested, connect, discovery, listen and the open
action. -/
def World.established (w : World) (opts : jupyterOptions) : Bool :=
  (match w.getOrChooseCodespace with | .ok _ => true | .error _ => false) &&
  (!opts.debug || (match w.newFileLogger with | .ok _ => true | .error _ => false)) &&
  w.connectToLiveshare.isNone &&
  (match w.startJupyterServer with | .ok _ => true | .error _ => false) &&
  (match w.netListen with | .ok _ => true | .error _ => false) &&
  w.browse.isNone

/-! ## Concrete runs -/

/-- The store of `safeClose` in the concrete runs below: keep an error already
held by the variable, else take the error of `Close()`. -/
def keepFirst (closeErr cur : Option GoError) : Option GoError :=
  match cur with
  | none => closeErr
  | some e => some e

/-- A run in which every stage succeeds and the user then cancels: remote
port 39827, local port 54210. -/
def exampleWorld : World where
  getOrChooseCodespace := .ok "monalisa-cli-abc".toList
  checkAuthorizedKeys := none
  newFileLogger := .ok "/tmp/gh-cs.log".toList
  connectToLiveshare := none
  startJupyterServer := .ok (39827, "http://localhost:39827/lab?token=abc123".toList)
  netListen := .ok 54210
  browse := none
  wait := .ctxDone
  listenClose := none
  sessionClose := none
  debugLoggerClose := none
  safeCloseStore := keepFirst

/-- The options of the concrete runs: no debug log. -/
def exampleOpts : jupyterOptions where
  codespace := "monalisa-cli-abc".toList
  debug := false
  debugFile := []
  stdio := false

/-- An error of a collaborator with the message `msg`. -/
def collabError (msg : String) : GoError := .collab msg.toList

/-- A run in which the advertised URL does not show the remote port. -/
def noPortWorld : World :=
  { exampleWorld with
    startJupyterServer := .ok (39827, "http://localhost/lab?token=abc123".toList) }

/-- A run in which the connect fails and the key check reports missing
keys. -/
def noKeysWorld : World :=
  { exampleWorld with
    connectToLiveshare := some (collabError "dial tcp: connection refused")
    checkAuthorizedKeys := some (collabError "user has no authorized SSH keys") }

/-- A run in which the tunnel is set up and the forwarder then reports that
the remote side closed the connection. -/
def tunnelClosedWorld : World :=
  { exampleWorld with wait := .tunnelClosed (some (collabError "EOF")) }

/-- A run in which the tunnel is set up and the open action then fails. -/
def browseFailWorld : World :=
  { exampleWorld with browse := some (collabError "no browser found") }

/-- A run in which the local listener cannot be bound. -/
def bindFailWorld : World :=
  { exampleWorld with netListen := .error (collabError "permission denied") }

/-- The run of `exampleWorld` with a session whose close fails. -/
def closeFailWorld : World :=
  { exampleWorld with sessionClose := some (collabError "session already closed") }

/-- A run in which the tunnel is set up, the context is then cancelled, and
the forwarder, which shares the context, delivers `context canceled` before
the `select` is reached; the `select` finds both channels ready and picks the
result of the tunnel. -/
def cancelThenTunnelWorld : World :=
  { exampleWorld with wait := .both (some (collabError "context canceled")) true }

/-- A run in which the forwarder delivers `EOF` while the open action is still
running, the context is cancelled before the `select` is reached, and the
`select` finds both channels ready and picks the cancellation. -/
def tunnelThenCancelWorld : World :=
  { exampleWorld with wait := .both (some (collabError "EOF")) false }

/-! ## The library functions -/

set_option maxRecDepth 100000
set_option linter.unusedTactic false

/-- The digit loop of `Nat.toDigits` never yields an empty string. -/
theorem toDigitsCore_ne_nil (b : Nat) : ∀ (f n : Nat) (ds : List Char),
    (0 < f ∨ ds ≠ []) → Nat.toDigitsCore b f n ds ≠ [] := by
  intro f
  induction f with
  | zero =>
    intro n ds h
    rcases h with h | h
    · exact absurd h (by decide)
    · simpa [Nat.toDigitsCore] using h
  | succ k ih =>
    intro n ds _
    simp only [Nat.toDigitsCore]
    split
    · simp
    · exact ih _ _ (Or.inr (by simp))

/-- The decimal string of an `int` is never empty. -/
theorem Sprintf_d_ne_nil (n : Int) : Sprintf_d n ≠ [] := by
  unfold Sprintf_d
  split
  · simp
  · exact toDigitsCore_ne_nil 10 _ _ _ (Or.inl (Nat.succ_pos _))

/-- `strings.Index` is `-1` or an index. -/
theorem Index_ge_neg_one (substr : GoString) : ∀ s : GoString, -1 ≤ Index s substr := by
  intro s
  induction s with
  | nil => unfold Index; split <;> decide
  | cons c cs ih =>
    unfold Index
    split
    · decide
    · simp only
      split
      · exact le_refl _
      · omega

/-- At the index that `strings.Index` returns there is an instance of
`substr`. -/
theorem Index_found (old : GoString) : ∀ (s : GoString) (i : Nat), Index s old = (i : Int) →
    s = s.take i ++ old ++ s.drop (i + old.length) := by
  intro s
  induction s with
  | nil =>
    intro i h
    unfold Index at h
    split at h
    · subst_vars; simp
    · omega
  | cons c cs ih =>
    intro i h
    unfold Index at h
    split at h
    · rename_i hp
      have hi : i = 0 := by omega
      subst hi
      rw [List.isPrefixOf_iff_prefix] at hp
      obtain ⟨t, ht⟩ := hp
      rw [← ht]
      simp
    · simp only at h
      split at h
      · omega
      · rename_i hr
        obtain ⟨k, rfl⟩ : ∃ k, i = k + 1 := ⟨i - 1, by omega⟩
        have hk : Index cs old = (k : Int) := by push_cast at h; omega
        have := ih k hk
        simp only [List.take_succ_cons, List.cons_append]
        rw [show k + 1 + old.length = (k + old.length) + 1 by omega, List.drop_succ_cons]
        exact congrArg (List.cons c) this

/-- `strings.Index` finds every instance, and none starts before the index it
returns. -/
theorem Index_leftmost (old : GoString) : ∀ (s pre post : GoString), s = pre ++ old ++ post →
    0 ≤ Index s old ∧ Index s old ≤ (pre.length : Int) := by
  intro s
  induction s with
  | nil =>
    intro pre post h
    have h1 : pre = [] ∧ old = [] := by
      have := congrArg List.length h
      simp at this
      constructor
      · exact List.length_eq_zero.mp (by omega)
      · exact List.length_eq_zero.mp (by omega)
    obtain ⟨rfl, rfl⟩ := h1
    simp [Index]
  | cons c cs ih =>
    intro pre post h
    unfold Index
    split
    · simp
    · rename_i hp
      rw [List.isPrefixOf_iff_prefix] at hp
      cases pre with
      | nil =>
        exfalso
        apply hp
        rw [h]
        simp
      | cons d pre1 =>
        simp only [List.cons_append, List.cons.injEq] at h
        obtain ⟨_, h2⟩ := h
        have := ih pre1 post h2
        simp only
        split
        · omega
        · simp only [List.length_cons]
          push_cast
          omega


/-- The counting loop never lowers its counter. -/
theorem countLoop_ge (substr : GoString) : ∀ (fuel : Nat) (s : GoString) (n : Nat),
    n ≤ countLoop substr fuel s n := by
  intro fuel
  induction fuel with
  | zero => intro s n; simp [countLoop]
  | succ k ih =>
    intro s n
    simp only [countLoop]
    split
    · exact le_refl _
    · exact le_trans (Nat.le_succ n) (ih _ _)

/-- For a non-empty `substr`, `strings.Count` is zero exactly when
`strings.Index` is `-1`. -/
theorem Count_eq_zero_iff (s old : GoString) (h : old ≠ []) :
    Count s old = 0 ↔ Index s old = -1 := by
  unfold Count
  rw [if_neg h]
  simp only [countLoop]
  constructor
  · intro h0
    by_contra hne
    rw [if_neg hne] at h0
    have := countLoop_ge old s.length (s.drop ((Index s old).toNat + old.length)) (0 + 1)
    omega
  · intro hi
    rw [if_pos hi]

/-- `strings.Replace(s, old, new, 1)` for a non-empty `old`, in terms of
`strings.Index`. -/
theorem Replace_one (s old new : GoString) (h : old ≠ []) :
    Replace s old new 1 =
      if Index s old < 0 then s
      else s.take (Index s old).toNat ++ new ++ s.drop ((Index s old).toNat + old.length) := by
  have hge := Index_ge_neg_one old s
  by_cases hneg : Index s old < 0
  · have hi : Index s old = -1 := by omega
    rw [if_pos hneg]
    unfold Replace
    split
    · rfl
    · simp only
      rw [if_pos ((Count_eq_zero_iff s old h).mpr hi)]
  · rw [if_neg hneg]
    obtain ⟨i, hi⟩ : ∃ i : Nat, Index s old = (i : Int) := ⟨(Index s old).toNat, by omega⟩
    have hfound := Index_found old s i hi
    unfold Replace
    split
    · rename_i hc
      rcases hc with hc | hc
      · subst hc
        rw [hi]
        simpa using hfound
      · exact absurd hc (by decide)
    · have hm : Count s old ≠ 0 := by
        intro h0
        have := (Count_eq_zero_iff s old h).mp h0
        omega
      simp only
      rw [if_neg hm]
      have hn : (if (1 : Int) < 0 ∨ ((Count s old : Nat) : Int) < 1 then Count s old
          else (1 : Int).toNat) = 1 := by
        have : ¬ ((1 : Int) < 0 ∨ ((Count s old : Nat) : Int) < 1) := by omega
        rw [if_neg this]
        rfl
      rw [hn]
      simp only [replaceLoop, if_neg h]
      simp [hi]


/-- With a non-empty `old` that has a leftmost occurrence in `s` right after
`pre`, `strings.Replace(s, old, new, 1)` replaces exactly that occurrence. -/
theorem Replace_one_at_first (s old new pre post : GoString) (h : old ≠ [])
    (hs : s = pre ++ old ++ post)
    (hmin : ∀ pre1 post1, s = pre1 ++ old ++ post1 → pre.length ≤ pre1.length) :
    Replace s old new 1 = pre ++ new ++ post := by
  have hl := Index_leftmost old s pre post hs
  obtain ⟨i, hi⟩ : ∃ i : Nat, Index s old = (i : Int) := ⟨(Index s old).toNat, by omega⟩
  have hfound := Index_found old s i hi
  have h1 : pre.length ≤ i := by
    have := hmin _ _ hfound
    simp only [List.length_take] at this
    omega
  have h2 : i = pre.length := by omega
  have hpre : s.take i = pre := by rw [h2, hs]; simp
  have hpost : s.drop (i + old.length) = post := by
    rw [h2, hs, List.append_assoc, ← List.length_append, ← List.append_assoc]
    simp
  rw [Replace_one s old new h, if_neg (by omega), hi]
  simp only [Int.toNat_ofNat]
  rw [hpre, hpost]

/-- With a non-empty `old` that does not occur in `s`,
`strings.Replace(s, old, new, 1)` is `s`. -/
theorem Replace_one_absent (s old new : GoString) (h : old ≠ []) (hn : ¬ old <:+: s) :
    Replace s old new 1 = s := by
  rw [Replace_one s old new h]
  split
  · rfl
  · rename_i hneg
    exfalso
    apply hn
    obtain ⟨i, hi⟩ : ∃ i : Nat, Index s old = (i : Int) := ⟨(Index s old).toNat, by omega⟩
    have hfound := Index_found old s i hi
    exact ⟨s.take i, s.drop (i + old.length), hfound.symm⟩

/-- An occurrence of `old` in `s` has a leftmost one. -/
theorem exists_leftmost (s old : GoString) (h : old <:+: s) :
    ∃ pre post, s = pre ++ old ++ post ∧
      ∀ pre1 post1, s = pre1 ++ old ++ post1 → pre.length ≤ pre1.length := by
  obtain ⟨a, b, hab⟩ := h
  have hl := Index_leftmost old s a b hab.symm
  obtain ⟨i, hi⟩ : ∃ i : Nat, Index s old = (i : Int) := ⟨(Index s old).toNat, by omega⟩
  have hfound := Index_found old s i hi
  refine ⟨s.take i, s.drop (i + old.length), hfound, ?_⟩
  intro pre1 post1 h1
  have := (Index_leftmost old s pre1 post1 h1).2
  simp only [List.length_take]
  omega

/-! ## The runs of `Jupyter` -/

/-- The open action is only ever called with the URL of line 100, computed
from the answers of the port discovery and of the listener. -/
theorem browse_mem_trace (w : World) (opts : jupyterOptions) (url : GoString)
    (berr : Option GoError) (hb : Event.browse url berr ∈ (Jupyter w opts).trace) :
    ∃ p u q, w.startJupyterServer = .ok (p, u) ∧ w.netListen = .ok q ∧
      url = targetUrl u p q := by
  have key : ∀ r, Jupyter w opts = r → Event.browse url berr ∈ r.trace →
      ∃ p u q, w.startJupyterServer = .ok (p, u) ∧ w.netListen = .ok q ∧
        url = targetUrl u p q := by
    intro r hr hb
    simp only [Jupyter, connectStage, sessionStage, waitStage] at hr
    repeat' split at hr
    all_goals
      subst hr
      simp only [doReturn, runDefers, runDeferred, Frame.emit, Frame.setErr, Frame.defer,
        safeClose] at hb
      simp only [List.mem_append, List.mem_cons, List.mem_singleton, List.not_mem_nil,
        or_false, false_or, reduceCtorEq] at hb
    all_goals
      rw [Event.browse.injEq] at hb
      exact ⟨_, _, _, by assumption, by assumption, hb.1⟩
  exact key _ rfl hb

/-! ## C1 and C2: the rewritten URL -/

/-- C1: for every remote port `p`, advertised URL `u` and local port `q`, the
URL that `Jupyter` hands to the open action is `u` with the leftmost
occurrence of the decimal string of `p` replaced by the decimal string of `q`
and everything else unchanged; it is `u` itself when the decimal string of `p`
does not occur in `u`; for 39827, `http://localhost:39827/lab?token=abc123`
and 54210 it is `http://localhost:54210/lab?token=abc123`. -/
theorem C1_target_url_replaces_first_port (w : World) (opts : jupyterOptions) (p q : Int)
    (u url : GoString) (berr : Option GoError)
    (hs : w.startJupyterServer = .ok (p, u)) (hl : w.netListen = .ok q)
    (hb : Event.browse url berr ∈ (Jupyter w opts).trace) :
    (∀ pre post, u = pre ++ Sprintf_d p ++ post →
        (∀ pre1 post1, u = pre1 ++ Sprintf_d p ++ post1 → pre.length ≤ pre1.length) →
        url = pre ++ Sprintf_d q ++ post) ∧
    (¬ Sprintf_d p <:+: u → url = u) ∧
    (p = 39827 → u = "http://localhost:39827/lab?token=abc123".toList → q = 54210 →
        url = "http://localhost:54210/lab?token=abc123".toList) := by
  obtain ⟨p1, u1, q1, h1, h2, h3⟩ := browse_mem_trace w opts url berr hb
  rw [hs] at h1
  rw [hl] at h2
  simp only [Except.ok.injEq, Prod.mk.injEq] at h1 h2
  obtain ⟨rfl, rfl⟩ := h1
  subst h2
  subst h3
  refine ⟨?_, ?_, ?_⟩
  · intro pre post hu hmin
    exact Replace_one_at_first u _ _ pre post (Sprintf_d_ne_nil p) hu hmin
  · intro hn
    exact Replace_one_absent u _ _ (Sprintf_d_ne_nil p) hn
  · intro hp hu hq
    subst hp hu hq
    decide

/-- C1, on the run of `exampleWorld`: the open action gets
`http://localhost:54210/lab?token=abc123`. -/
theorem C1_target_url_replaces_first_port_witness :
    ∃ url, Event.browse url none ∈ (Jupyter exampleWorld exampleOpts).trace ∧
      url = "http://localhost:54210/lab?token=abc123".toList :=
  ⟨targetUrl "http://localhost:39827/lab?token=abc123".toList 39827 54210, by decide,
    (C1_target_url_replaces_first_port exampleWorld exampleOpts 39827 54210
      "http://localhost:39827/lab?token=abc123".toList _ none rfl rfl (by decide)).2.2
      rfl rfl rfl⟩

/-- C2, as stated, fails: when the advertised URL does not show the remote
port (here `http://localhost/lab?token=abc123` with remote port 39827) the
open action gets the URL unchanged, and the local port 54210 is nowhere in
it. -/
theorem C2_counterexample :
    Event.browse "http://localhost/lab?token=abc123".toList none ∈
        (Jupyter noPortWorld exampleOpts).trace ∧
      noPortWorld.startJupyterServer =
        .ok (39827, "http://localhost/lab?token=abc123".toList) ∧
      noPortWorld.netListen = .ok 54210 ∧
      ¬ Sprintf_d 54210 <:+: "http://localhost/lab?token=abc123".toList := by
  refine ⟨by decide, rfl, rfl, by decide⟩

/-- C2, amended: when the decimal string of the remote port occurs in the
advertised URL, the rewritten URL has the decimal string of the local port in
place of the leftmost occurrence, and what stands before and after that
occurrence (any token or query that follows the port) is kept verbatim; when
it does not occur, the rewritten URL is the advertised URL. -/
theorem C2_rewritten_url_keeps_rest (w : World) (opts : jupyterOptions) (p q : Int)
    (u url : GoString) (berr : Option GoError)
    (hs : w.startJupyterServer = .ok (p, u)) (hl : w.netListen = .ok q)
    (hb : Event.browse url berr ∈ (Jupyter w opts).trace) :
    (Sprintf_d p <:+: u →
      ∃ pre post, u = pre ++ Sprintf_d p ++ post ∧
        (∀ pre1 post1, u = pre1 ++ Sprintf_d p ++ post1 → pre.length ≤ pre1.length) ∧
        url = pre ++ Sprintf_d q ++ post ∧
        Sprintf_d q <:+: url ∧ pre <+: url ∧ post <:+ url) ∧
    (¬ Sprintf_d p <:+: u → url = u) := by
  obtain ⟨p1, u1, q1, h1, h2, h3⟩ := browse_mem_trace w opts url berr hb
  rw [hs] at h1
  rw [hl] at h2
  simp only [Except.ok.injEq, Prod.mk.injEq] at h1 h2
  obtain ⟨rfl, rfl⟩ := h1
  subst h2
  subst h3
  constructor
  · intro hin
    obtain ⟨pre, post, hu, hmin⟩ := exists_leftmost u _ hin
    have hurl := Replace_one_at_first u _ (Sprintf_d q) pre post (Sprintf_d_ne_nil p) hu hmin
    refine ⟨pre, post, hu, hmin, hurl, ?_, ?_, ?_⟩
    · exact ⟨pre, post, hurl.symm⟩
    · exact ⟨Sprintf_d q ++ post, by unfold targetUrl; rw [hurl, List.append_assoc]⟩
    · exact ⟨pre ++ Sprintf_d q, hurl.symm⟩
  · intro hn
    exact Replace_one_absent u _ _ (Sprintf_d_ne_nil p) hn

/-- C2 amended, on the run of `exampleWorld`: the rewritten URL shows 54210
and ends in `/lab?token=abc123`. -/
theorem C2_rewritten_url_keeps_rest_witness :
    ∃ url, Event.browse url none ∈ (Jupyter exampleWorld exampleOpts).trace ∧
      Sprintf_d 39827 <:+: "http://localhost:39827/lab?token=abc123".toList ∧
      ∃ pre post, "http://localhost:39827/lab?token=abc123".toList =
          pre ++ Sprintf_d 39827 ++ post ∧
        url = pre ++ Sprintf_d 54210 ++ post ∧ Sprintf_d 54210 <:+: url ∧ post <:+ url := by
  have h := (C2_rewritten_url_keeps_rest exampleWorld exampleOpts 39827 54210
    "http://localhost:39827/lab?token=abc123".toList
    (targetUrl "http://localhost:39827/lab?token=abc123".toList 39827 54210) none rfl rfl
    (by decide)).1 (by decide)
  obtain ⟨pre, post, h1, _, h3, h4, _, h6⟩ := h
  exact ⟨_, by decide, by decide, pre, post, h1, h3, h4, h6⟩
/-! ## C3: a failed connect -/

/-- C3: when resolution (and the creation of the debug logger, if requested)
succeeds and the session connect fails with `e`, then `Jupyter` returns
exactly `c` if the key check delivers a non-nil `c`, and the error that wraps
`e` behind the text `error connecting to codespace: ` if the key check
delivers nil; in both cases there is no discovery, no listen, no forwarding
task and no open action. -/
theorem C3_connect_failure_prefers_key_error (w : World) (opts : jupyterOptions) (e : GoError)
    (hres : ∃ name, w.getOrChooseCodespace = .ok name)
    (hlog : opts.debug = true → ∃ name, w.newFileLogger = .ok name)
    (hconn : w.connectToLiveshare = some e) :
    (∀ c, w.checkAuthorizedKeys = some c → (Jupyter w opts).outcome = .returned (some c)) ∧
    (w.checkAuthorizedKeys = none →
      (Jupyter w opts).outcome = .returned
        (some (.wrapError ("error connecting to codespace: ".toList ++ e.Error) e))) ∧
    (Jupyter w opts).trace.any
      (fun ev => ev.isDiscovery || ev.isListen || ev.isForward || ev.isBrowse) = false := by
  obtain ⟨name, hn⟩ := hres
  have key : ∀ r, Jupyter w opts = r →
      (∀ c, w.checkAuthorizedKeys = some c → r.outcome = .returned (some c)) ∧
      (w.checkAuthorizedKeys = none →
        r.outcome = .returned
          (some (.wrapError ("error connecting to codespace: ".toList ++ e.Error) e))) ∧
      r.trace.any
        (fun ev => ev.isDiscovery || ev.isListen || ev.isForward || ev.isBrowse) = false := by
    intro r hr
    simp only [Jupyter, connectStage, hn, hconn] at hr
    repeat' split at hr
    all_goals
      subst hr
      simp_all [doReturn, runDefers, runDeferred, Frame.emit, Frame.setErr, Frame.defer,
        safeClose, Errorf, Event.isDiscovery, Event.isListen, Event.isForward, Event.isBrowse]
  exact key _ rfl

/-- C3, on the run of `noKeysWorld`: the connect fails, the key check reports
missing keys, and that error is returned as it is. -/
theorem C3_connect_failure_prefers_key_error_witness :
    (∃ name, noKeysWorld.getOrChooseCodespace = .ok name) ∧
    noKeysWorld.connectToLiveshare = some (collabError "dial tcp: connection refused") ∧
    (Jupyter noKeysWorld exampleOpts).outcome =
      .returned (some (collabError "user has no authorized SSH keys")) :=
  ⟨⟨_, rfl⟩, rfl,
    (C3_connect_failure_prefers_key_error noKeysWorld exampleOpts
      (collabError "dial tcp: connection refused") ⟨_, rfl⟩
      (fun h => absurd h (by decide)) rfl).1 _ rfl⟩

/-! ## C4 and C5: the final `select` -/

/-- What a run whose stages all succeed does for each thing its `select` can
find: the outcome, and which receive is in the trace. -/
theorem select_outcome (w : World) (opts : jupyterOptions)
    (hest : w.established opts = true) :
    (Jupyter w opts).trace.any Event.isForward = true ∧
    (w.wait = .ctxDone ∨ (∃ r, w.wait = .both r false) →
      (Jupyter w opts).outcome = .returned none ∧
      (Jupyter w opts).trace.any Event.isRecvCtxDone = true ∧
      (Jupyter w opts).trace.any Event.isRecvTunnelClosed = false) ∧
    (∀ r, w.wait = .tunnelClosed r ∨ w.wait = .both r true →
      (Jupyter w opts).outcome = .returned (some (Errorf "tunnel closed: ".toList r)) ∧
      (Jupyter w opts).trace.any Event.isRecvCtxDone = false ∧
      (Jupyter w opts).trace.any Event.isRecvTunnelClosed = true) ∧
    (w.wait = .never →
      (Jupyter w opts).outcome = .blocked ∧
      (Jupyter w opts).trace.any Event.isRecvCtxDone = false ∧
      (Jupyter w opts).trace.any Event.isRecvTunnelClosed = false) := by
  have key : ∀ run, Jupyter w opts = run →
      run.trace.any Event.isForward = true ∧
      (w.wait = .ctxDone ∨ (∃ r, w.wait = .both r false) →
        run.outcome = .returned none ∧
        run.trace.any Event.isRecvCtxDone = true ∧
        run.trace.any Event.isRecvTunnelClosed = false) ∧
      (∀ r, w.wait = .tunnelClosed r ∨ w.wait = .both r true →
        run.outcome = .returned (some (Errorf "tunnel closed: ".toList r)) ∧
        run.trace.any Event.isRecvCtxDone = false ∧
        run.trace.any Event.isRecvTunnelClosed = true) ∧
      (w.wait = .never →
        run.outcome = .blocked ∧
        run.trace.any Event.isRecvCtxDone = false ∧
        run.trace.any Event.isRecvTunnelClosed = false) := by
    intro run hr
    simp only [Jupyter, connectStage, sessionStage, waitStage] at hr
    repeat' split at hr
    all_goals
      subst hr
      simp_all [World.established, doReturn, runDefers, runDeferred, Frame.emit,
        Frame.setErr, Frame.defer, safeClose, Event.isForward, Event.isRecvTunnelClosed,
        Event.isRecvCtxDone]
  exact key _ rfl

/-- The error made for a closed tunnel: its message begins with
`tunnel closed: `, it wraps a non-nil reason, and for a nil reason its message
is `tunnel closed: %!w(<nil>)`. -/
theorem Errorf_tunnel_closed (r : Option GoError) :
    "tunnel closed: ".toList <+: (Errorf "tunnel closed: ".toList r).Error ∧
    (∀ r1, r = some r1 → Errorf "tunnel closed: ".toList r =
      .wrapError ("tunnel closed: ".toList ++ r1.Error) r1) ∧
    (r = none → (Errorf "tunnel closed: ".toList r).Error =
      "tunnel closed: %!w(<nil>)".toList) := by
  refine ⟨?_, ?_, ?_⟩
  · cases r with
    | none => exact ⟨_, rfl⟩
    | some r1 => exact ⟨_, rfl⟩
  · intro r1 h1
    subst h1
    rfl
  · intro h1
    subst h1
    decide

/-- C4, as stated, fails: in the run of `cancelThenTunnelWorld` the tunnel is
established, the context is cancelled before the tunnel closes, the forwarder
answers the cancellation with its reason before the `select` is reached, the
`select` picks the result of the tunnel, and `Jupyter` returns the error
`tunnel closed: context canceled`, not nil. -/
theorem C4_counterexample :
    cancelThenTunnelWorld.established exampleOpts = true ∧
      cancelThenTunnelWorld.wait = .both (some (collabError "context canceled")) true ∧
      (Jupyter cancelThenTunnelWorld exampleOpts).outcome =
        .returned (some (.wrapError "tunnel closed: context canceled".toList
          (collabError "context canceled"))) ∧
      (Jupyter cancelThenTunnelWorld exampleOpts).outcome ≠ .returned none := by
  decide

/-- C4, amended: once the tunnel is established (resolution, connect,
discovery, listen and the open action succeeded, the forwarding task runs),
`Jupyter` returns nil exactly when its `select` takes the cancellation. It does
so when the context is done while nothing has arrived on `tunnelClosed`, and
then no error about a closed tunnel is returned; when the cancellation and the
result of the tunnel are both ready, `Jupyter` returns nil if the `select`
picks the cancellation and the error about the closed tunnel if it picks the
result. -/
theorem C4_cancel_taken_by_select_returns_nil (w : World) (opts : jupyterOptions)
    (hest : w.established opts = true) :
    (w.wait = .ctxDone →
      (Jupyter w opts).outcome = .returned none ∧
      (∀ r, (Jupyter w opts).outcome ≠
        .returned (some (Errorf "tunnel closed: ".toList r))) ∧
      (Jupyter w opts).trace.any Event.isRecvTunnelClosed = false) ∧
    (∀ r, w.wait = .both r false → (Jupyter w opts).outcome = .returned none) ∧
    (∀ r, w.wait = .both r true →
      (Jupyter w opts).outcome = .returned (some (Errorf "tunnel closed: ".toList r))) ∧
    ((Jupyter w opts).outcome = .returned none ↔
      (Jupyter w opts).trace.any Event.isRecvCtxDone = true) ∧
    (Jupyter w opts).trace.any Event.isForward = true := by
  obtain ⟨hf, hdone, htun, hnever⟩ := select_outcome w opts hest
  refine ⟨?_, ?_, ?_, ?_, hf⟩
  · intro hw
    obtain ⟨h1, _, h3⟩ := hdone (Or.inl hw)
    refine ⟨h1, ?_, h3⟩
    intro r
    rw [h1]
    simp
  · intro r hw
    exact (hdone (Or.inr ⟨r, hw⟩)).1
  · intro r hw
    exact (htun r (Or.inr hw)).1
  · cases hw : w.wait with
    | tunnelClosed r =>
      obtain ⟨h1, h2, _⟩ := htun r (Or.inl hw)
      rw [h1, h2]
      simp
    | ctxDone =>
      obtain ⟨h1, h2, _⟩ := hdone (Or.inl hw)
      rw [h1, h2]
      simp
    | both r pick =>
      cases pick with
      | true =>
        obtain ⟨h1, h2, _⟩ := htun r (Or.inr hw)
        rw [h1, h2]
        simp
      | false =>
        obtain ⟨h1, h2, _⟩ := hdone (Or.inr ⟨r, hw⟩)
        rw [h1, h2]
        simp
    | never =>
      obtain ⟨h1, h2, _⟩ := hnever hw
      rw [h1, h2]
      simp

/-- C4 amended, on the run of `exampleWorld`: the `select` finds only the
cancellation and `Jupyter` returns nil. -/
theorem C4_cancel_taken_by_select_returns_nil_witness :
    exampleWorld.established exampleOpts = true ∧ exampleWorld.wait = .ctxDone ∧
    (Jupyter exampleWorld exampleOpts).outcome = .returned none :=
  ⟨by decide, rfl,
    ((C4_cancel_taken_by_select_returns_nil exampleWorld exampleOpts (by decide)).1 rfl).1⟩

/-- C5, as stated, fails: in the run of `tunnelThenCancelWorld` the forwarder
delivers `EOF` on `tunnelClosed` before the context is cancelled, the context
is cancelled before the `select` is reached, the `select` picks the
cancellation, and `Jupyter` returns nil. -/
theorem C5_counterexample :
    tunnelThenCancelWorld.established exampleOpts = true ∧
      tunnelThenCancelWorld.wait = .both (some (collabError "EOF")) false ∧
      (Jupyter tunnelThenCancelWorld exampleOpts).outcome = .returned none := by
  decide

/-- C5, amended: when the run reaches the final wait and its `select` takes
the reason `r` of the forwarder from `tunnelClosed`, which it does when `r` is
delivered while the context is not done, `Jupyter` returns a non-nil error
whose message begins with `tunnel closed: `; it wraps `r` when `r` is not nil,
and for a nil `r` it is still a non-nil error. When `r` and the cancellation
are both ready, `Jupyter` returns that error if the `select` picks `r` and nil
if it picks the cancellation. -/
theorem C5_tunnel_result_taken_by_select_returns_error (w : World) (opts : jupyterOptions)
    (r : Option GoError) (hest : w.established opts = true) :
    (w.wait = .tunnelClosed r ∨ w.wait = .both r true →
      ∃ e, (Jupyter w opts).outcome = .returned (some e) ∧
        "tunnel closed: ".toList <+: e.Error ∧
        (∀ r1, r = some r1 → e = .wrapError ("tunnel closed: ".toList ++ r1.Error) r1) ∧
        (r = none → e.Error = "tunnel closed: %!w(<nil>)".toList) ∧
        (Jupyter w opts).trace.any Event.isRecvTunnelClosed = true) ∧
    (w.wait = .both r false → (Jupyter w opts).outcome = .returned none) ∧
    ((∃ e, (Jupyter w opts).outcome = .returned (some e)) ↔
      (Jupyter w opts).trace.any Event.isRecvTunnelClosed = true) := by
  obtain ⟨_, hdone, htun, hnever⟩ := select_outcome w opts hest
  refine ⟨?_, ?_, ?_⟩
  · intro hw
    obtain ⟨h1, _, h3⟩ := htun r hw
    obtain ⟨e1, e2, e3⟩ := Errorf_tunnel_closed r
    exact ⟨_, h1, e1, e2, e3, h3⟩
  · intro hw
    exact (hdone (Or.inr ⟨r, hw⟩)).1
  · cases hw : w.wait with
    | tunnelClosed r0 =>
      obtain ⟨h1, _, h3⟩ := htun r0 (Or.inl hw)
      rw [h1, h3]
      simp
    | ctxDone =>
      obtain ⟨h1, _, h3⟩ := hdone (Or.inl hw)
      rw [h1, h3]
      simp
    | both r0 pick =>
      cases pick with
      | true =>
        obtain ⟨h1, _, h3⟩ := htun r0 (Or.inr hw)
        rw [h1, h3]
        simp
      | false =>
        obtain ⟨h1, _, h3⟩ := hdone (Or.inr ⟨r0, hw⟩)
        rw [h1, h3]
        simp
    | never =>
      obtain ⟨h1, _, h3⟩ := hnever hw
      rw [h1, h3]
      simp

/-- C5 amended, on the run of `tunnelClosedWorld`: the forwarder reports `EOF`,
the context is not done, and `Jupyter` returns the error `tunnel closed: EOF`
that wraps it. -/
theorem C5_tunnel_result_taken_by_select_returns_error_witness :
    tunnelClosedWorld.established exampleOpts = true ∧
    tunnelClosedWorld.wait = .tunnelClosed (some (collabError "EOF")) ∧
    (Jupyter tunnelClosedWorld exampleOpts).outcome =
      .returned (some (.wrapError "tunnel closed: EOF".toList (collabError "EOF"))) := by
  obtain ⟨e, h1, _, h3, _⟩ :=
    (C5_tunnel_result_taken_by_select_returns_error tunnelClosedWorld exampleOpts
      (some (collabError "EOF")) (by decide)).1 (Or.inl rfl)
  refine ⟨by decide, rfl, ?_⟩
  rw [h1, h3 _ rfl]
  decide

/-! ## C6: release of the session and of the listener -/

/-- What `precededBy` computes: every event that satisfies `q` has an event
that satisfies `p` somewhere before it. -/
theorem precededBy_iff (p q : Event → Bool) : ∀ t : List Event,
    precededBy p q t = true ↔
      ∀ a e b, t = a ++ e :: b → q e = true → ∃ x ∈ a, p x = true := by
  intro t
  induction t with
  | nil =>
    simp only [precededBy, true_iff]
    intro a e b h
    exact absurd h (by simp)
  | cons e0 es ih =>
    simp only [precededBy, Bool.and_eq_true, Bool.or_eq_true, Bool.not_eq_true', ih]
    constructor
    · rintro ⟨hq, hp⟩ a e b h he
      cases a with
      | nil =>
        simp only [List.nil_append, List.cons.injEq] at h
        rw [← h.1, hq] at he
        exact absurd he (by decide)
      | cons a0 a1 =>
        simp only [List.cons_append, List.cons.injEq] at h
        obtain ⟨rfl, h2⟩ := h
        rcases hp with hp | hp
        · exact ⟨e0, List.mem_cons_self _ _, hp⟩
        · obtain ⟨x, hx, hpx⟩ := hp a1 e b h2 he
          exact ⟨x, List.mem_cons_of_mem _ hx, hpx⟩
    · intro h
      constructor
      · by_contra hq
        obtain ⟨x, hx, _⟩ := h [] e0 es rfl (by simpa using hq)
        exact absurd hx (List.not_mem_nil x)
      · by_cases hp : p e0 = true
        · exact Or.inl hp
        · right
          intro a e b hab he
          obtain ⟨x, hx, hpx⟩ := h (e0 :: a) e b (by rw [hab]; rfl) he
          rcases List.mem_cons.mp hx with rfl | hx
          · exact absurd hpx hp
          · exact ⟨x, hx, hpx⟩

/-- C6: on every exit path the session is closed exactly once if the connect
succeeded and not at all otherwise, and the listener is closed exactly once if
the listen succeeded and not at all otherwise. On a resolution failure
neither is opened or closed; on a bind failure the session is closed and no
listener is closed; on the tunnel-closed path and on the cancellation path
both are closed before `Jupyter` returns. -/
theorem C6_session_and_listener_released (w : World) (opts : jupyterOptions)
    (res : Option GoError) (hret : (Jupyter w opts).outcome = .returned res) :
    ((Jupyter w opts).trace.countP Event.isSessionClose =
      if (Jupyter w opts).trace.any Event.isConnected then 1 else 0) ∧
    ((Jupyter w opts).trace.countP Event.isListenClose =
      if (Jupyter w opts).trace.any Event.isListening then 1 else 0) ∧
    ((Jupyter w opts).trace.any Event.isResolveFailed = true →
      (Jupyter w opts).trace.any Event.isConnect = false ∧
      (Jupyter w opts).trace.any Event.isListen = false ∧
      (Jupyter w opts).trace.countP Event.isSessionClose = 0 ∧
      (Jupyter w opts).trace.countP Event.isListenClose = 0) ∧
    ((Jupyter w opts).trace.any Event.isListenFailed = true →
      (Jupyter w opts).trace.countP Event.isSessionClose = 1 ∧
      (Jupyter w opts).trace.countP Event.isListenClose = 0) ∧
    ((Jupyter w opts).trace.any Event.isRecvTunnelClosed = true ∨
        (Jupyter w opts).trace.any Event.isRecvCtxDone = true →
      (Jupyter w opts).trace.countP Event.isSessionClose = 1 ∧
      (Jupyter w opts).trace.countP Event.isListenClose = 1) := by
  have key : ∀ r, Jupyter w opts = r → r.outcome = .returned res →
      (r.trace.countP Event.isSessionClose =
        if r.trace.any Event.isConnected then 1 else 0) ∧
      (r.trace.countP Event.isListenClose =
        if r.trace.any Event.isListening then 1 else 0) ∧
      (r.trace.any Event.isResolveFailed = true →
        r.trace.any Event.isConnect = false ∧ r.trace.any Event.isListen = false ∧
        r.trace.countP Event.isSessionClose = 0 ∧ r.trace.countP Event.isListenClose = 0) ∧
      (r.trace.any Event.isListenFailed = true →
        r.trace.countP Event.isSessionClose = 1 ∧ r.trace.countP Event.isListenClose = 0) ∧
      (r.trace.any Event.isRecvTunnelClosed = true ∨ r.trace.any Event.isRecvCtxDone = true →
        r.trace.countP Event.isSessionClose = 1 ∧ r.trace.countP Event.isListenClose = 1) := by
    intro r hr hout
    simp only [Jupyter, connectStage, sessionStage, waitStage] at hr
    repeat' split at hr
    all_goals
      subst hr
      simp [doReturn, runDefers, runDeferred, Frame.emit, Frame.setErr, Frame.defer,
        safeClose, Event.isSessionClose, Event.isListenClose, Event.isConnected,
        Event.isListening, Event.isResolveFailed, Event.isConnect, Event.isListen,
        Event.isListenFailed, Event.isRecvTunnelClosed, Event.isRecvCtxDone] at hout ⊢
  exact key _ rfl hret

/-- C6, on the run of `exampleWorld`, which ends by cancellation: the session
and the listener are each closed once. -/
theorem C6_session_and_listener_released_witness :
    (Jupyter exampleWorld exampleOpts).outcome = .returned none ∧
    (Jupyter exampleWorld exampleOpts).trace.countP Event.isSessionClose = 1 ∧
    (Jupyter exampleWorld exampleOpts).trace.countP Event.isListenClose = 1 :=
  ⟨by decide,
    (C6_session_and_listener_released exampleWorld exampleOpts none (by decide)).2.2.2.2
      (Or.inr (by decide))⟩
/-! ## C7: the order of listen, discovery, forwarding and the open action -/

/-- C7: in every run the open action is called only after the port of the
listener has been read back, which happens only after a successful
`net.Listen("tcp", "127.0.0.1:0")`; the URL it gets is the rewritten URL for the
port read back; the port discovery on the session comes before the start of the
forwarding task; and a run whose listen failed has no open action. -/
theorem C7_browse_only_after_listen (w : World) (opts : jupyterOptions) :
    precededBy Event.isAddrPort Event.isBrowse (Jupyter w opts).trace = true ∧
    precededBy Event.isListening Event.isAddrPort (Jupyter w opts).trace = true ∧
    precededBy Event.isDiscovery Event.isForward (Jupyter w opts).trace = true ∧
    (∀ network address err, Event.netListen network address err ∈ (Jupyter w opts).trace →
      network = "tcp".toList ∧ address = "127.0.0.1:0".toList) ∧
    (∀ url berr, Event.browse url berr ∈ (Jupyter w opts).trace →
      ∃ p u q, w.startJupyterServer = .ok (p, u) ∧
        Event.listenAddrPort q ∈ (Jupyter w opts).trace ∧ url = targetUrl u p q) ∧
    ((Jupyter w opts).trace.any Event.isListenFailed = true →
      (Jupyter w opts).trace.any Event.isBrowse = false) := by
  have haddr : "127.0.0.1:".toList ++ Sprintf_d 0 = "127.0.0.1:0".toList := by decide
  have key : ∀ r, Jupyter w opts = r →
      precededBy Event.isAddrPort Event.isBrowse r.trace = true ∧
      precededBy Event.isListening Event.isAddrPort r.trace = true ∧
      precededBy Event.isDiscovery Event.isForward r.trace = true ∧
      (∀ network address err, Event.netListen network address err ∈ r.trace →
        network = "tcp".toList ∧ address = "127.0.0.1:0".toList) ∧
      (∀ url berr, Event.browse url berr ∈ r.trace →
        ∃ p u q, w.startJupyterServer = .ok (p, u) ∧
          Event.listenAddrPort q ∈ r.trace ∧ url = targetUrl u p q) ∧
      (r.trace.any Event.isListenFailed = true → r.trace.any Event.isBrowse = false) := by
    intro r hr
    simp only [Jupyter, connectStage, sessionStage, waitStage, haddr] at hr
    repeat' split at hr
    all_goals
      subst hr
      simp only [doReturn, runDefers, runDeferred, Frame.emit, Frame.setErr, Frame.defer,
        safeClose, List.cons_append, List.nil_append, List.append_assoc]
      refine ⟨?_, ?_, ?_, ?_, ?_, ?_⟩
    all_goals first
      | rfl
      | (intro network address err h
         simp only [List.mem_cons, List.not_mem_nil, reduceCtorEq, false_or, or_false,
           Event.netListen.injEq] at h
         try exact ⟨h.1, h.2.1⟩
         done)
      | (intro url berr h
         simp only [List.mem_cons, List.not_mem_nil, reduceCtorEq, false_or, or_false,
           Event.browse.injEq] at h
         try (refine ⟨_, _, _, by assumption, ?_, h.1⟩
              simp only [List.mem_cons, reduceCtorEq, false_or, true_or, or_true])
         done)
      | (intro h
         first
           | rfl
           | (simp only [List.any_cons, List.any_nil, Event.isListenFailed, Bool.or_false,
                Bool.false_or, Bool.or_self, Bool.false_eq_true] at h
              done))
  exact key _ rfl

/-- C7, on the run of `exampleWorld`: the open action is called, after the
port of the listener was read back, with the rewritten URL for port 54210. -/
theorem C7_browse_only_after_listen_witness :
    (Jupyter exampleWorld exampleOpts).trace.any Event.isBrowse = true ∧
    precededBy Event.isAddrPort Event.isBrowse (Jupyter exampleWorld exampleOpts).trace = true ∧
    precededBy Event.isListening Event.isAddrPort
      (Jupyter exampleWorld exampleOpts).trace = true ∧
    precededBy Event.isDiscovery Event.isForward
      (Jupyter exampleWorld exampleOpts).trace = true :=
  ⟨by decide, (C7_browse_only_after_listen exampleWorld exampleOpts).1,
    (C7_browse_only_after_listen exampleWorld exampleOpts).2.1,
    (C7_browse_only_after_listen exampleWorld exampleOpts).2.2.1⟩

/-! ## C8: the order of the session close and the cancellation -/

/-- C8, as stated, fails: in the run of `browseFailWorld` the connect succeeds,
the forwarding task is started, the open action fails, and on the way out the
session is closed before the deferred `cancel()` is called; no `cancel()` comes
before the session close. -/
theorem C8_counterexample :
    (Jupyter browseFailWorld exampleOpts).outcome =
        .returned (some (collabError "no browser found")) ∧
      (Jupyter browseFailWorld exampleOpts).trace.any Event.isConnected = true ∧
      (Jupyter browseFailWorld exampleOpts).trace.any Event.isForward = true ∧
      precededBy Event.isCancel Event.isSessionClose
        (Jupyter browseFailWorld exampleOpts).trace = false ∧
      precededBy Event.isSessionClose Event.isCancel
        (Jupyter browseFailWorld exampleOpts).trace = true := by
  decide

/-- C8, amended: on every exit path taken after the session connect succeeded,
the session is closed exactly once and the deferred `cancel()` is called
exactly once, as the last effect before `Jupyter` returns, so the session close
comes before it; on the cancellation path the context was seen done before the
session close. -/
theorem C8_session_closed_before_deferred_cancel (w : World) (opts : jupyterOptions)
    (res : Option GoError) (hret : (Jupyter w opts).outcome = .returned res)
    (hconn : (Jupyter w opts).trace.any Event.isConnected = true) :
    precededBy Event.isSessionClose Event.isCancel (Jupyter w opts).trace = true ∧
    (Jupyter w opts).trace.countP Event.isSessionClose = 1 ∧
    (Jupyter w opts).trace.countP Event.isCancel = 1 ∧
    (Jupyter w opts).trace.getLast? = some Event.cancel ∧
    ((Jupyter w opts).trace.any Event.isRecvCtxDone = true →
      precededBy Event.isRecvCtxDone Event.isSessionClose (Jupyter w opts).trace = true) := by
  have key : ∀ r, Jupyter w opts = r → r.outcome = .returned res →
      r.trace.any Event.isConnected = true →
      precededBy Event.isSessionClose Event.isCancel r.trace = true ∧
      r.trace.countP Event.isSessionClose = 1 ∧
      r.trace.countP Event.isCancel = 1 ∧
      r.trace.getLast? = some Event.cancel ∧
      (r.trace.any Event.isRecvCtxDone = true →
        precededBy Event.isRecvCtxDone Event.isSessionClose r.trace = true) := by
    intro r hr hout hc
    simp only [Jupyter, connectStage, sessionStage, waitStage] at hr
    repeat' split at hr
    all_goals
      subst hr
      simp only [doReturn, runDefers, runDeferred, Frame.emit, Frame.setErr, Frame.defer,
        safeClose, List.cons_append, List.nil_append, List.append_assoc] at hout hc ⊢
    all_goals first
      | exact ⟨rfl, rfl, rfl, rfl, fun _ => rfl⟩
      | exact ⟨rfl, rfl, rfl, rfl, fun h => by
          simp only [List.any_cons, List.any_nil, Event.isRecvCtxDone, Bool.or_false,
            Bool.or_self, Bool.false_eq_true] at h⟩
      | (simp only [List.any_cons, List.any_nil, Event.isConnected, Bool.or_false,
           Bool.or_self, Bool.false_eq_true] at hc
         done)
      | (simp only [reduceCtorEq] at hout
         done)
  exact key _ rfl hret hconn

/-- C8 amended, on the run of `browseFailWorld`: the session is closed once,
before the one call of `cancel()`. -/
theorem C8_session_closed_before_deferred_cancel_witness :
    (Jupyter browseFailWorld exampleOpts).trace.any Event.isConnected = true ∧
    precededBy Event.isSessionClose Event.isCancel
      (Jupyter browseFailWorld exampleOpts).trace = true ∧
    (Jupyter browseFailWorld exampleOpts).trace.getLast? = some Event.cancel :=
  ⟨by decide,
    (C8_session_closed_before_deferred_cancel browseFailWorld exampleOpts _ rfl
      (by decide)).1,
    (C8_session_closed_before_deferred_cancel browseFailWorld exampleOpts _ rfl
      (by decide)).2.2.2.1⟩

/-! ## C9: what a returned error says about the stage -/

/-- C9, as stated, fails: in the run of `bindFailWorld` the listen fails with
`permission denied` and `Jupyter` returns that very error; it is not a wrapping
error and its message names no stage. -/
theorem C9_counterexample :
    (Jupyter bindFailWorld exampleOpts).outcome =
        .returned (some (collabError "permission denied")) ∧
      (collabError "permission denied").Error = "permission denied".toList ∧
      ∀ msg inner, collabError "permission denied" ≠ GoError.wrapError msg inner := by
  refine ⟨by decide, by decide, ?_⟩
  intro msg inner h
  exact GoError.noConfusion h

/-- C9, amended: a non-nil error returned by `Jupyter` is one of these. The
error of a failed resolution, debug-logger creation, connect (when the key
check delivers nil) or discovery, wrapped behind a text that names the stage;
the error made for a closed tunnel, whose text begins with `tunnel closed: `;
or, returned as the collaborator made it and without any text of `Jupyter`,
the error of the key check, of the listen or of the open action. -/
theorem C9_returned_error_by_stage (w : World) (opts : jupyterOptions) (e : GoError)
    (hret : (Jupyter w opts).outcome = .returned (some e)) :
    (∃ c, w.getOrChooseCodespace = .error c ∧
      e = .wrapError ("get or choose codespace: ".toList ++ c.Error) c) ∨
    (∃ c, opts.debug = true ∧ w.newFileLogger = .error c ∧
      e = .wrapError ("error creating debug logger: ".toList ++ c.Error) c) ∨
    (∃ c, w.connectToLiveshare = some c ∧ w.checkAuthorizedKeys = none ∧
      e = .wrapError ("error connecting to codespace: ".toList ++ c.Error) c) ∨
    (∃ c, w.startJupyterServer = .error c ∧
      e = .wrapError ("error getting jupyter server details: ".toList ++ c.Error) c) ∨
    (∃ r, (w.wait = .tunnelClosed r ∨ w.wait = .both r true) ∧
      e = Errorf "tunnel closed: ".toList r ∧ "tunnel closed: ".toList <+: e.Error) ∨
    (∃ c, w.connectToLiveshare = some c ∧ w.checkAuthorizedKeys = some e) ∨
    w.netListen = .error e ∨
    w.browse = some e := by
  have hpre : ∀ r, "tunnel closed: ".toList <+: (Errorf "tunnel closed: ".toList r).Error := by
    intro r
    cases r with
    | none => exact ⟨_, rfl⟩
    | some r1 => exact ⟨_, rfl⟩
  have key : ∀ r, Jupyter w opts = r → r.outcome = .returned (some e) →
      (∃ c, w.getOrChooseCodespace = .error c ∧
        e = .wrapError ("get or choose codespace: ".toList ++ c.Error) c) ∨
      (∃ c, opts.debug = true ∧ w.newFileLogger = .error c ∧
        e = .wrapError ("error creating debug logger: ".toList ++ c.Error) c) ∨
      (∃ c, w.connectToLiveshare = some c ∧ w.checkAuthorizedKeys = none ∧
        e = .wrapError ("error connecting to codespace: ".toList ++ c.Error) c) ∨
      (∃ c, w.startJupyterServer = .error c ∧
        e = .wrapError ("error getting jupyter server details: ".toList ++ c.Error) c) ∨
      (∃ r, (w.wait = .tunnelClosed r ∨ w.wait = .both r true) ∧
        e = Errorf "tunnel closed: ".toList r ∧ "tunnel closed: ".toList <+: e.Error) ∨
      (∃ c, w.connectToLiveshare = some c ∧ w.checkAuthorizedKeys = some e) ∨
      w.netListen = .error e ∨
      w.browse = some e := by
    intro r hr hout
    simp only [Jupyter, connectStage, sessionStage, waitStage] at hr
    repeat' split at hr
    all_goals
      subst hr
      simp only [doReturn, Outcome.returned.injEq, Option.some.injEq, reduceCtorEq,
        Frame.setErr, Frame.emit, Frame.defer] at hout
    all_goals try subst hout
    all_goals first
      | exact Or.inl ⟨_, by assumption, rfl⟩
      | exact Or.inr (Or.inl ⟨_, by assumption, by assumption, rfl⟩)
      | exact Or.inr (Or.inr (Or.inl ⟨_, by assumption, by assumption, rfl⟩))
      | exact Or.inr (Or.inr (Or.inr (Or.inl ⟨_, by assumption, rfl⟩)))
      | exact Or.inr (Or.inr (Or.inr (Or.inr (Or.inl
          ⟨_, Or.inl (by assumption), rfl, hpre _⟩))))
      | exact Or.inr (Or.inr (Or.inr (Or.inr (Or.inl
          ⟨_, Or.inr (by simp_all), rfl, hpre _⟩))))
      | exact Or.inr (Or.inr (Or.inr (Or.inr (Or.inr (Or.inl
          ⟨_, by assumption, by assumption⟩)))))
      | exact Or.inr (Or.inr (Or.inr (Or.inr (Or.inr (Or.inr (Or.inl (by assumption)))))))
      | exact Or.inr (Or.inr (Or.inr (Or.inr (Or.inr (Or.inr (Or.inr (by assumption)))))))
  exact key _ rfl hret

/-- C9 amended, on the run of `tunnelClosedWorld`: the returned error is the
one made for a closed tunnel. -/
theorem C9_returned_error_by_stage_witness :
    (Jupyter tunnelClosedWorld exampleOpts).outcome =
        .returned (some (Errorf "tunnel closed: ".toList (some (collabError "EOF")))) ∧
      "tunnel closed: ".toList <+:
        (Errorf "tunnel closed: ".toList (some (collabError "EOF"))).Error := by
  have h := C9_returned_error_by_stage tunnelClosedWorld exampleOpts
    (Errorf "tunnel closed: ".toList (some (collabError "EOF"))) (by decide)
  refine ⟨by decide, ?_⟩
  rcases h with ⟨c, hc, _⟩ | ⟨c, hc, _⟩ | ⟨c, hc, _⟩ | ⟨c, hc, _⟩ | ⟨r, _, _, h3⟩ |
    ⟨c, hc, _⟩ | hc | hc
  · simp [tunnelClosedWorld, exampleWorld] at hc
  · exact absurd hc (by decide)
  · simp [tunnelClosedWorld, exampleWorld] at hc
  · simp [tunnelClosedWorld, exampleWorld] at hc
  · exact h3
  · simp [tunnelClosedWorld, exampleWorld] at hc
  · simp [tunnelClosedWorld, exampleWorld] at hc
  · simp [tunnelClosedWorld, exampleWorld] at hc

/-! ## C10: the result and the deferred cleanup -/

/-- A run whose stages all succeed and whose `select` sees the cancellation
returns nil. -/
theorem outcome_of_cancel (w : World) (opts : jupyterOptions)
    (hest : w.established opts = true) (hw : w.wait = .ctxDone) :
    (Jupyter w opts).outcome = .returned none := by
  have key : ∀ r, Jupyter w opts = r → r.outcome = .returned none := by
    intro r hr
    simp only [Jupyter, connectStage, sessionStage, waitStage, hw] at hr
    repeat' split at hr
    all_goals
      subst hr
      simp_all [World.established, doReturn]
  exact key _ rfl

/-- C10: the error `Jupyter` returns does not depend on the cleanup. Two runs
that differ only in the answers of `listen.Close()`, `session.Close()` and
`debugLogger.Close()` (and in what `safeClose` stores through its pointer) end
the same way; in particular a run ended by cancellation returns nil also when
the session close reports an error. -/
theorem C10_result_independent_of_cleanup (w : World) (opts : jupyterOptions)
    (lc sc dc : Option GoError) (store : Option GoError → Option GoError → Option GoError) :
    (Jupyter { w with listenClose := lc, sessionClose := sc, debugLoggerClose := dc,
                      safeCloseStore := store } opts).outcome = (Jupyter w opts).outcome ∧
    (w.established opts = true → w.wait = .ctxDone → ∀ ce,
      (Jupyter { w with sessionClose := some ce } opts).outcome = .returned none) := by
  constructor
  · obtain ⟨g, a, l, c, s, n, b, wt, lc0, sc0, dc0, st0⟩ := w
    obtain ⟨cs, dbg, df, stdio⟩ := opts
    simp only [Jupyter, connectStage, sessionStage, waitStage]
    repeat' split
    all_goals rfl
  · intro hest hw ce
    exact outcome_of_cancel _ opts hest hw

/-- C10, on the run of `closeFailWorld`: the run ends by cancellation, the
session close fails and leaves its error in the local variable `err`, and
`Jupyter` still returns nil. -/
theorem C10_result_independent_of_cleanup_witness :
    exampleWorld.established exampleOpts = true ∧ exampleWorld.wait = .ctxDone ∧
    (Jupyter closeFailWorld exampleOpts).err =
      some (collabError "session already closed") ∧
    (Jupyter closeFailWorld exampleOpts).outcome = .returned none :=
  ⟨by decide, rfl, by decide,
    (C10_result_independent_of_cleanup exampleWorld exampleOpts none none none keepFirst).2
      (by decide) rfl (collabError "session already closed")⟩

end codespace
